import Mathlib

/-!
Verification of the `AudioSource` audio feature-extraction pipeline of
`src/static/src/js/audio.js` (musicolors).

The JavaScript class is shallowly embedded as follows:

* JS numbers are modelled as real numbers (`ℝ`); byte-valued spectrum
  magnitudes (`Uint8Array` entries) are modelled as `ℕ` values `≤ 255`.
* The mutable instance (`this`) becomes an explicit `AudioSource` record;
  each method becomes a function from the record (plus an environment
  describing the outcome of every external platform call) to an updated
  record, a list of emitted effects on platform resources, and an optional
  surfaced error (a JS `throw`).
* Platform audio-graph objects (AudioContext, AnalyserNode, source nodes,
  ScriptProcessorNode, the Meyda analyser) are modelled by identifiers;
  calls that disconnect/close/create them are recorded as `Effect`s so that
  ownership and rollback behaviour is observable.
-/

noncomputable section

set_option maxRecDepth 8192

namespace Musicolors

/-- Result of the external `note-frequency-map` lookup `noteFromFreq`:
a note name and an octave. The mapping itself is an external library and is
kept abstract (supplied by the environment). -/
structure Note where
  name : String
  octave : Int
deriving Repr, DecidableEq

/-- `this._pitchConfig` (audio.js lines 24–28). -/
structure PitchConfig where
  clarityThreshold : ℝ
  minFrequency : ℝ
  maxFrequency : ℝ

/-- `this._audioData` (audio.js lines 31–46): the feature snapshot,
overwritten in place each tick. -/
structure AudioData where
  energy : ℝ
  roughness : ℝ
  warmth : ℝ
  richness : ℝ
  sharpness : ℝ
  kurtosis : ℝ
  pitch : Option String
  octave : Option Int
  dominantFrequency : ℝ
  dominantBin : ℕ
  bassFrequency : ℝ
  bassEnergy : ℝ
  frequencyData : Option (List ℕ)
  timeDomainData : Option (List ℕ)

/-- `this._smoothedValues` (audio.js lines 50–55). -/
structure SmoothedValues where
  energy : ℝ
  warmth : ℝ
  richness : ℝ
  sharpness : ℝ

/-- An `AudioContext`: a platform resource identifier together with its
sample rate (the only attribute the pipeline reads). -/
structure AudioCtx where
  id : ℕ
  sampleRate : ℝ

/-- An `AnalyserNode`: a platform resource identifier together with its
`fftSize` (the pipeline reads `fftSize` and `frequencyBinCount = fftSize/2`). -/
structure Analyser where
  id : ℕ
  fftSize : ℕ

/-- Observable actions on platform resources, recorded in order. -/
inductive Effect where
  | warn : Effect
  | create : ℕ → Effect
  | createMeyda : ℕ → Effect
  | startMeyda : ℕ → Effect
  | stopMeyda : ℕ → Effect
  | connect : ℕ → ℕ → Effect
  | disconnect : ℕ → Effect
  | close : ℕ → Effect
  | setOnAudioProcess : ℕ → Effect
  | clearOnAudioProcess : ℕ → Effect
  | cancelPoll : Effect
deriving Repr, DecidableEq

/-- The `AudioSource` instance state (constructor, audio.js lines 12–56). -/
structure AudioSource where
  audioContext : Option AudioCtx
  analyser : Option Analyser
  meydaAnalyser : Option ℕ
  pitchDetector : Option ℕ
  source : Option ℕ
  scriptProcessor : Option ℕ
  pollFrameId : Option ℕ
  isInitialized : Bool
  isExternal : Bool
  pitchConfig : PitchConfig
  smoothingFactor : ℝ
  smoothedValues : SmoothedValues
  audioData : AudioData

/-- Constructor `options` (audio.js lines 25–27, 49) with their `??` defaults. -/
structure Options where
  clarityThreshold : ℝ := 0.9
  minFrequency : ℝ := 20
  maxFrequency : ℝ := 4000
  smoothingFactor : ℝ := 0.8

/-- The initial `_audioData` value set by the constructor. -/
def defaultAudioData : AudioData where
  energy := 0
  roughness := 0
  warmth := 0
  richness := 0
  sharpness := 0
  kurtosis := 0
  pitch := none
  octave := none
  dominantFrequency := 0
  dominantBin := 0
  bassFrequency := 0
  bassEnergy := 0
  frequencyData := none
  timeDomainData := none

/-- `new AudioSource(options)` (audio.js lines 12–56). -/
def mkAudioSource (options : Options) : AudioSource where
  audioContext := none
  analyser := none
  meydaAnalyser := none
  pitchDetector := none
  source := none
  scriptProcessor := none
  pollFrameId := none
  isInitialized := false
  isExternal := false
  pitchConfig :=
    { clarityThreshold := options.clarityThreshold
      minFrequency := options.minFrequency
      maxFrequency := options.maxFrequency }
  smoothingFactor := options.smoothingFactor
  smoothedValues := { energy := 0, warmth := 0, richness := 0, sharpness := 0 }
  audioData := defaultAudioData

/-- `getAudioData(copy)` (audio.js lines 443–445): returns the feature
snapshot. In this value-level model the `copy` flag makes no difference
(it only controls aliasing of the returned object). -/
def getAudioData (s : AudioSource) (_copy : Bool := false) : AudioData :=
  s.audioData

/-- `_smooth(oldValue, newValue)` (audio.js lines 434–436), with the
instance's `_smoothingFactor` passed explicitly. -/
def smooth (smoothingFactor oldValue newValue : ℝ) : ℝ :=
  oldValue * smoothingFactor + newValue * (1 - smoothingFactor)

/-- Iterated smoothing of the constant raw input `c`, starting from `start`:
`smoothIter f start c n` is the smoothed value after `n` ticks whose raw
input is always `c`. -/
def smoothIter (factor start c : ℝ) : ℕ → ℝ
  | 0 => start
  | n + 1 => smooth factor (smoothIter factor start c n) c

/-- `setSmoothingFactor(factor)` (audio.js lines 469–471). -/
def setSmoothingFactor (s : AudioSource) (factor : ℝ) : AudioSource :=
  { s with smoothingFactor := max 0 (min 1 factor) }

/-- Energy of `_calculateFeaturesFromFrequencyData` (audio.js lines 392–396):
`sqrt(mean(v*v)) / 255`. -/
def energyFD (freqData : List ℕ) : ℝ :=
  Real.sqrt ((freqData.map fun (v : ℕ) => (v : ℝ) * (v : ℝ)).sum / freqData.length) / 255

/-- Spectral centroid of `_calculateFeaturesFromFrequencyData`
(audio.js lines 399–405): magnitude-weighted mean bin index scaled to Hz,
`0` when the total magnitude is `0`. -/
def centroidFD (freqData : List ℕ) (sampleRate : ℝ) : ℝ :=
  let weightedSum : ℝ := (freqData.enum.map fun p => (p.1 : ℝ) * (p.2 : ℝ)).sum
  let totalWeight : ℝ := (freqData.map fun (v : ℕ) => (v : ℝ)).sum
  if 0 < totalWeight then
    weightedSum / totalWeight * (sampleRate / 2 / freqData.length)
  else 0

/-- Spectral flatness of `_calculateFeaturesFromFrequencyData`
(audio.js lines 408–417): geometric mean over arithmetic mean of the
magnitudes floored at `1` (the `Math.max(freqData[i], 1)` guard against
`log(0)`), `0` when the arithmetic mean is not positive. -/
def flatnessFD (freqData : List ℕ) : ℝ :=
  let vals := freqData.map fun (v : ℕ) => max (v : ℝ) 1
  let geometricMean := Real.exp ((vals.map Real.log).sum / freqData.length)
  let arithmeticMean := vals.sum / freqData.length
  if 0 < arithmeticMean then geometricMean / arithmeticMean else 0

/-- The scan loop of `_updateDominantFrequency` (audio.js lines 304–312):
fold over bins `lo..hi` (inclusive), tracking `(maxVal, peakBin)`, starting
from `(0, lo)`; a bin wins only with a strictly greater magnitude, so ties
resolve to the lowest-frequency bin. -/
def scanPeak (freqData : List ℕ) (lo hi : ℕ) : ℕ × ℕ :=
  (List.range' lo (hi + 1 - lo)).foldl
    (fun acc i => if freqData.getD i 0 > acc.1 then (freqData.getD i 0, i) else acc)
    (0, lo)

/-- The four snapshot fields written by `_updateDominantFrequency`. -/
structure DomUpdate where
  dominantFrequency : ℝ
  dominantBin : ℕ
  bassFrequency : ℝ
  bassEnergy : ℝ

/-- The linear bass-to-hue map of `_updateDominantFrequency` (audio.js
lines 317–319): `hue = (peakFreq - minBassHz)/(maxBassHz - minBassHz) * 360`
with the fixed band `[minBassHz, maxBassHz] = [20, 120]`. -/
def bassHue (peakFreq : ℝ) : ℝ :=
  (peakFreq - 20) / (120 - 20) * 360

/-- `_updateDominantFrequency` (audio.js lines 288–325) as a pure function of
the frequency buffer and the sample rate: scans the bass band
`[minBassHz, maxBassHz] = [20, 120]` Hz for the loudest bin and writes the
result into all four of `dominantFrequency`, `dominantBin`,
`bassFrequency` (the linear hue map) and `bassEnergy`. -/
def updateDominantFrequency (freqData : List ℕ) (sampleRate : ℝ) : DomUpdate :=
  let binCount := freqData.length
  let nyquist := sampleRate / 2
  let binSize := nyquist / binCount
  let minBassHz : ℝ := 20
  let maxBassHz : ℝ := 120
  let minBassBin := ⌊minBassHz / binSize⌋₊
  let maxBassBin := ⌈maxBassHz / binSize⌉₊
  let peak := scanPeak freqData minBassBin (min maxBassBin (binCount - 1))
  let peakFreq := (peak.2 : ℝ) * binSize
  { dominantFrequency := peakFreq
    dominantBin := peak.2
    bassFrequency := bassHue peakFreq
    bassEnergy := (peak.1 : ℝ) / 255 }

/-- The pitch/octave pair produced by the body of `_updatePitch`
(audio.js lines 341–359): `pitchResult` is the outcome of the external
`pitchDetector.findPitch` call (`Except.error` models a thrown exception,
caught by the surrounding `try`), `note` the external `noteFromFreq`
lookup. The pitch is kept only when the clarity/frequency gate passes. -/
def updatePitchResult (cfg : PitchConfig) (note : ℝ → Note)
    (pitchResult : Except Unit (ℝ × ℝ)) : Option String × Option Int :=
  match pitchResult with
  | .error _ => (none, none)
  | .ok (pitch, clarity) =>
    if clarity > cfg.clarityThreshold ∧ pitch > cfg.minFrequency ∧
        pitch < cfg.maxFrequency then
      ((note pitch).name, (note pitch).octave)
    else (none, none)

/-- Environment of one analysis tick: the data the platform delivers through
the analyser tap, and the behaviour of the external pitch libraries. -/
structure TickEnv where
  /-- contents delivered by `analyser.getByteFrequencyData`. -/
  freqBuf : List ℕ
  /-- contents delivered by `analyser.getByteTimeDomainData`. -/
  timeBuf : List ℕ
  /-- outcome of `pitchDetector.findPitch(input, sampleRate)`;
  `Except.error` models a thrown exception. -/
  pitchResult : Except Unit (ℝ × ℝ)
  /-- the external `FrequencyMap.noteFromFreq` lookup table. -/
  noteFromFreq : ℝ → Note
  /-- handle returned by `requestAnimationFrame`. -/
  frameId : ℕ

/-- The dominant-frequency part of the tick: guard plus state update
(audio.js lines 288–325, entered from line 280). -/
def updateDominantFrequencyState (s : AudioSource) : AudioSource :=
  match s.audioData.frequencyData, s.audioContext with
  | some freqData, some ctx =>
    let r := updateDominantFrequency freqData ctx.sampleRate
    { s with audioData := { s.audioData with
        dominantFrequency := r.dominantFrequency
        dominantBin := r.dominantBin
        bassFrequency := r.bassFrequency
        bassEnergy := r.bassEnergy } }
  | _, _ => s

/-- `_updateFrequencyData` (audio.js lines 266–281): returns unchanged if no
analyser is attached; otherwise stores the tap's current byte buffers in the
snapshot (the source (re)allocates the `Uint8Array`s only when
`frequencyBinCount` changes — allocation is not observable in this value
model) and then runs the dominant-frequency scan. -/
def updateFrequencyData (env : TickEnv) (s : AudioSource) : AudioSource :=
  match s.analyser with
  | none => s
  | some _ =>
    updateDominantFrequencyState
      { s with audioData := { s.audioData with
          frequencyData := some env.freqBuf
          timeDomainData := some env.timeBuf } }

/-- `_updatePitch` (audio.js lines 331–360): returns unchanged if no analyser
or context is attached; otherwise lazily creates the pitch detector (sized by
the analyser's `fftSize`) and writes the gated pitch/octave pair. -/
def updatePitch (env : TickEnv) (s : AudioSource) : AudioSource :=
  match s.analyser, s.audioContext with
  | some anl, some _ =>
    let pd := match s.pitchDetector with
      | none => some anl.fftSize
      | some p => some p
    let po := updatePitchResult s.pitchConfig env.noteFromFreq env.pitchResult
    { s with
      pitchDetector := pd
      audioData := { s.audioData with pitch := po.1, octave := po.2 } }
  | _, _ => s

/-- `_updateFeatures(features)` (audio.js lines 366–379): the Meyda callback
path; smooths energy/warmth/richness/sharpness and copies the rest. -/
structure MeydaFeatures where
  energy : ℝ
  spectralCentroid : ℝ
  perceptualSpread : ℝ
  perceptualSharpness : ℝ
  spectralFlatness : ℝ
  spectralKurtosis : ℝ

/-- `_updateFeatures` state update. The source applies `|| 0` to each field,
which is the identity on every number except `NaN` (and on `0` itself);
features are modelled as plain reals. -/
def updateFeatures (s : AudioSource) (features : MeydaFeatures) : AudioSource :=
  let sv : SmoothedValues :=
    { energy := smooth s.smoothingFactor s.smoothedValues.energy features.energy
      warmth := smooth s.smoothingFactor s.smoothedValues.warmth features.spectralCentroid
      richness := smooth s.smoothingFactor s.smoothedValues.richness features.perceptualSpread
      sharpness := smooth s.smoothingFactor s.smoothedValues.sharpness features.perceptualSharpness }
  { s with
    smoothedValues := sv
    audioData := { s.audioData with
      energy := sv.energy
      roughness := features.spectralFlatness
      warmth := sv.warmth
      richness := sv.richness
      sharpness := sv.sharpness
      kurtosis := features.spectralKurtosis } }

/-- `_calculateFeaturesFromFrequencyData` (audio.js lines 385–428): the
fallback feature path, used on poll ticks when no Meyda analyser is attached.
Returns unchanged when no frequency buffer exists (line 386). The source
reads `this.audioContext.sampleRate` unconditionally; a tick with a buffer
but no context cannot occur (ticks only run while initialized), and that
unreachable case is modelled as a no-op. -/
def calculateFeaturesFromFrequencyData (s : AudioSource) : AudioSource :=
  match s.audioData.frequencyData, s.audioContext with
  | some freqData, some ctx =>
    let energy := energyFD freqData
    let centroid := centroidFD freqData ctx.sampleRate
    let flatness := flatnessFD freqData
    let svEnergy := smooth s.smoothingFactor s.smoothedValues.energy energy
    let svWarmth := smooth s.smoothingFactor s.smoothedValues.warmth (min centroid 360)
    { s with
      smoothedValues := { s.smoothedValues with energy := svEnergy, warmth := svWarmth }
      audioData := { s.audioData with
        energy := svEnergy
        roughness := flatness
        warmth := svWarmth
        richness := min (energy * 2) 1
        sharpness := min (centroid / 1000) 1 } }
  | _, _ => s

/-- The body of one poll iteration (audio.js lines 243–258), without the
rescheduling: frequency update, pitch update, and the fallback feature path
for external sources without Meyda. -/
def pollTickBody (env : TickEnv) (s : AudioSource) : AudioSource :=
  let s := updateFrequencyData env s
  let s := updatePitch env s
  if s.isExternal && s.meydaAnalyser.isNone
    then calculateFeaturesFromFrequencyData s else s

/-- `_startPolling` (audio.js lines 242–260): runs the first poll iteration
synchronously; the iteration stops (clearing the frame handle) when the
instance is no longer initialized, otherwise it reschedules itself via
`requestAnimationFrame`. -/
def startPolling (env : TickEnv) (s : AudioSource) : AudioSource :=
  if s.isInitialized then
    { pollTickBody env s with pollFrameId := some env.frameId }
  else
    { s with pollFrameId := none }

/-- Fixed identifiers for the resources an initializer creates, in creation
order: context, analyser, media source, script processor; `destId` stands
for the context's pre-existing `destination` node, `meydaId` for the Meyda
analyser. -/
def ctxId : ℕ := 0
def analyserId : ℕ := 1
def sourceId : ℕ := 2
def scriptProcessorId : ℕ := 3
def destId : ℕ := 4
def meydaId : ℕ := 5

/-- `_initMeyda(source)` (audio.js lines 211–236): stops a previous Meyda
analyser if one exists, then creates and starts a new one. -/
def initMeyda (s : AudioSource) : AudioSource × List Effect :=
  let stopEffs := match s.meydaAnalyser with
    | some m => [Effect.stopMeyda m]
    | none => []
  ({ s with meydaAnalyser := some meydaId },
   stopEffs ++ [Effect.createMeyda meydaId, Effect.startMeyda meydaId])

/-- `_cleanupPartialInit` (audio.js lines 187–205): releases whatever was
created, in reverse creation order — script processor, source, analyser,
context — nulling each reference. -/
def cleanupPartialInit (s : AudioSource) : AudioSource × List Effect :=
  let (s, e1) := match s.scriptProcessor with
    | some sp =>
      ({ s with scriptProcessor := none },
       [Effect.clearOnAudioProcess sp, Effect.disconnect sp])
    | none => (s, [])
  let (s, e2) := match s.source with
    | some r => ({ s with source := none }, [Effect.disconnect r])
    | none => (s, [])
  let (s, e3) := match s.analyser with
    | some a => ({ s with analyser := none }, [Effect.disconnect a.id])
    | none => (s, [])
  let (s, e4) := match s.audioContext with
    | some c => ({ s with audioContext := none }, [Effect.close c.id])
    | none => (s, [])
  (s, e1 ++ e2 ++ e3 ++ e4)

/-- `destroy()` (audio.js lines 485–522): cancels the pending poll, clears
the initialized flag, stops Meyda, tears down the script processor, and
disconnects/closes source, analyser and context only when they are owned
(`!isExternal`); finally nulls all references. -/
def destroy (s : AudioSource) : AudioSource × List Effect :=
  let (s, e1) := match s.pollFrameId with
    | some _ => ({ s with pollFrameId := none }, [Effect.cancelPoll])
    | none => (s, [])
  let s := { s with isInitialized := false }
  let (s, e2) := match s.meydaAnalyser with
    | some m => ({ s with meydaAnalyser := none }, [Effect.stopMeyda m])
    | none => (s, [])
  let (s, e3) := match s.scriptProcessor with
    | some sp =>
      ({ s with scriptProcessor := none },
       [Effect.clearOnAudioProcess sp, Effect.disconnect sp])
    | none => (s, [])
  let e4 := match s.source with
    | some r => if s.isExternal then [] else [Effect.disconnect r]
    | none => []
  let e5 := match s.analyser with
    | some a => if s.isExternal then [] else [Effect.disconnect a.id]
    | none => []
  let e6 := match s.audioContext with
    | some c => if s.isExternal then [] else [Effect.close c.id]
    | none => []
  ({ s with source := none, analyser := none, audioContext := none, pitchDetector := none },
   e1 ++ e2 ++ e3 ++ e4 ++ e5 ++ e6)

/-- A surfaced JS error (a `throw` reaching the caller). -/
inductive JSError where
  | invalidArgument : String → JSError
  | failure : String → JSError
deriving Repr, DecidableEq

/-- Result of an initializer call: the instance state after the call, the
effect trace, and the surfaced error if the call threw. (A JS method that
throws still leaves its mutations to `this` in place, so the state and trace
accompany the error.) -/
structure InitResult where
  state : AudioSource
  effects : List Effect
  error : Option JSError

/-- Environment for `initMicrophone`: which of the external platform steps
succeed, and the sample rate of the created context. -/
structure MicEnv where
  /-- `navigator.mediaDevices?.getUserMedia` exists. -/
  getUserMediaSupported : Bool
  /-- the `getUserMedia` promise resolves (permission granted, device ok). -/
  streamOk : Bool
  /-- `new AudioContext()` succeeds. -/
  ctxOk : Bool
  sampleRate : ℝ
  /-- `createAnalyser()` succeeds. -/
  analyserOk : Bool
  /-- `createMediaStreamSource(stream)` succeeds. -/
  sourceOk : Bool
  /-- `createScriptProcessor(2048, 1, 1)` succeeds. -/
  scriptProcessorOk : Bool
  /-- `Meyda.createMeydaAnalyzer` succeeds. -/
  meydaOk : Bool

/-- The `catch` block of `initMicrophone` (audio.js lines 101–105):
cleanup of partial state, then rethrow. -/
def micFail (s : AudioSource) (effs : List Effect) : InitResult :=
  let (s, ce) := cleanupPartialInit s
  ⟨s, effs ++ ce, some (JSError.failure "Failed to initialize microphone")⟩

/-- `initMicrophone()` (audio.js lines 62–106). Creation order inside the
`try`: context, analyser (fftSize 8192), media-stream source,
source→analyser connect, script processor, analyser→scriptProcessor and
scriptProcessor→destination connects, audio-process callback, Meyda.
Any step failing jumps to the catch block (`micFail`). -/
def initMicrophone (env : MicEnv) (s : AudioSource) : InitResult :=
  if s.isInitialized then ⟨s, [Effect.warn], none⟩ else
  if !env.getUserMediaSupported then
    ⟨s, [], some (JSError.failure "getUserMedia not supported in this browser")⟩ else
  if !env.streamOk then micFail s [] else
  if !env.ctxOk then micFail s [] else
  let s := { s with audioContext := some ⟨ctxId, env.sampleRate⟩ }
  let effs := [Effect.create ctxId]
  if !env.analyserOk then micFail s effs else
  let s := { s with analyser := some ⟨analyserId, 8192⟩ }
  let effs := effs ++ [Effect.create analyserId]
  if !env.sourceOk then micFail s effs else
  let s := { s with source := some sourceId }
  let effs := effs ++ [Effect.create sourceId]
  let effs := effs ++ [Effect.connect sourceId analyserId]
  if !env.scriptProcessorOk then micFail s effs else
  let s := { s with scriptProcessor := some scriptProcessorId }
  let effs := effs ++ [Effect.create scriptProcessorId]
  let effs := effs ++ [Effect.connect analyserId scriptProcessorId,
                       Effect.connect scriptProcessorId destId,
                       Effect.setOnAudioProcess scriptProcessorId]
  if !env.meydaOk then micFail s effs else
  let (s, me) := initMeyda s
  let effs := effs ++ me
  ⟨{ s with isInitialized := true, isExternal := false }, effs, none⟩

/-- A JS value passed to `connectExternalAnalyser`, as seen by its
`instanceof` validation: a real `AnalyserNode`, a real `AudioContext`,
or anything else (including `null`/`undefined`). -/
inductive JSArg where
  | analyserNode : ℕ → ℕ → JSArg
  | audioContextArg : ℕ → ℝ → JSArg
  | otherArg : JSArg

/-- `connectExternalAnalyser(analyserNode, audioContext)` (audio.js
lines 114–139): double-init guard, `instanceof` validation of both
arguments (throwing before any instance state is touched), adoption of the
caller's nodes, pitch-detector creation, and the first poll iteration. -/
def connectExternalAnalyser (s : AudioSource) (analyserArg audioContextArg : JSArg)
    (env : TickEnv) : InitResult :=
  if s.isInitialized then ⟨s, [Effect.warn], none⟩ else
  match analyserArg with
  | .analyserNode aid fftSize =>
    match audioContextArg with
    | .audioContextArg cid sampleRate =>
      let s := { s with
        audioContext := some ⟨cid, sampleRate⟩
        analyser := some ⟨aid, fftSize⟩
        isInitialized := true
        isExternal := true
        pitchDetector := some fftSize }
      ⟨startPolling env s, [], none⟩
    | _ => ⟨s, [], some (JSError.invalidArgument
        "audioContext must be an AudioContext instance")⟩
  | _ => ⟨s, [], some (JSError.invalidArgument
      "analyserNode must be an AnalyserNode instance")⟩

/-- Environment for `connectAudioElement`. -/
structure ElemEnv where
  /-- the argument is an `HTMLAudioElement`. -/
  validElement : Bool
  /-- `new AudioContext()` succeeds. -/
  ctxOk : Bool
  sampleRate : ℝ
  /-- `createAnalyser()` succeeds. -/
  analyserOk : Bool
  /-- `createMediaElementSource(audioElement)` succeeds (throws if the
  element already has a source). -/
  sourceOk : Bool
  /-- `Meyda.createMeydaAnalyzer` succeeds. -/
  meydaOk : Bool
  /-- environment of the first poll iteration. -/
  tick : TickEnv

/-- The `catch` block of `connectAudioElement` (audio.js lines 176–180). -/
def elemFail (s : AudioSource) (effs : List Effect) : InitResult :=
  let (s, ce) := cleanupPartialInit s
  ⟨s, effs ++ ce, some (JSError.failure "Failed to connect audio element")⟩

/-- `connectAudioElement(audioElement)` (audio.js lines 146–181). Creation
order inside the `try`: context, analyser (fftSize 8192), media-element
source, source→analyser and analyser→destination connects, Meyda; then the
initialized/external flags are set before polling starts. -/
def connectAudioElement (env : ElemEnv) (s : AudioSource) : InitResult :=
  if s.isInitialized then ⟨s, [Effect.warn], none⟩ else
  if !env.validElement then
    ⟨s, [], some (JSError.invalidArgument
      "audioElement must be an HTMLAudioElement instance")⟩ else
  if !env.ctxOk then elemFail s [] else
  let s := { s with audioContext := some ⟨ctxId, env.sampleRate⟩ }
  let effs := [Effect.create ctxId]
  if !env.analyserOk then elemFail s effs else
  let s := { s with analyser := some ⟨analyserId, 8192⟩ }
  let effs := effs ++ [Effect.create analyserId]
  if !env.sourceOk then elemFail s effs else
  let s := { s with source := some sourceId }
  let effs := effs ++ [Effect.create sourceId,
                       Effect.connect sourceId analyserId,
                       Effect.connect analyserId destId]
  if !env.meydaOk then elemFail s effs else
  let (s, me) := initMeyda s
  let effs := effs ++ me
  let s := { s with isInitialized := true, isExternal := true }
  ⟨startPolling env.tick s, effs, none⟩

/-- Resource identifiers created by an effect trace, in order. -/
def createdIds (effs : List Effect) : List ℕ :=
  effs.filterMap fun e => match e with
    | Effect.create r => some r
    | _ => none

/-- Resource identifiers released (disconnected or closed) by an effect
trace, in order. -/
def releasedIds (effs : List Effect) : List ℕ :=
  effs.filterMap fun e => match e with
    | Effect.disconnect r => some r
    | Effect.close r => some r
    | _ => none

/-- The uninitialized-instance invariant: what holds of a fresh instance,
and is restored by `destroy` and by initializer rollback. -/
def Uninit (s : AudioSource) : Prop :=
  s.isInitialized = false ∧ s.audioContext = none ∧ s.analyser = none ∧
  s.source = none ∧ s.scriptProcessor = none ∧ s.meydaAnalyser = none

/-!
Concrete fixtures used to instantiate the theorems below on explicit
inputs.
-/

/-- A tick environment with a clear 440 Hz pitch and a small tap buffer. -/
def tenv0 : TickEnv where
  freqBuf := [10, 20]
  timeBuf := [128, 128]
  pitchResult := .ok (440, 0.95)
  noteFromFreq := fun _ => ⟨"A", 4⟩
  frameId := 7

/-- A microphone environment in which every platform step succeeds. -/
def menvOk : MicEnv where
  getUserMediaSupported := true
  streamOk := true
  ctxOk := true
  sampleRate := 44100
  analyserOk := true
  sourceOk := true
  scriptProcessorOk := true
  meydaOk := true

/-- A microphone environment failing at `createScriptProcessor`. -/
def menvSpFail : MicEnv :=
  { menvOk with scriptProcessorOk := false }

/-- An audio-element environment in which every platform step succeeds. -/
def eenvOk : ElemEnv where
  validElement := true
  ctxOk := true
  sampleRate := 44100
  analyserOk := true
  sourceOk := true
  meydaOk := true
  tick := tenv0

/-- A fresh instance with default options. -/
def s0 : AudioSource := mkAudioSource {}

/-- A fresh instance artificially marked initialized, to exercise the
double-initialization guard. -/
def sInit : AudioSource := { s0 with isInitialized := true }

/-- A fresh instance with an analyser tap and context attached directly
(as the external-tap strategy leaves them). -/
def sTap : AudioSource :=
  { s0 with analyser := some ⟨1, 2048⟩, audioContext := some ⟨0, 44100⟩ }

/-- A 1024-bin magnitude buffer that is `0` everywhere except value `255`
at bin `100`. -/
def bin100Buf : List ℕ :=
  List.replicate 100 0 ++ 255 :: List.replicate 923 0

/-- A tapped instance mid-stream: buffers present, as after some ticks. -/
def sFallback : AudioSource :=
  { sTap with audioData := { defaultAudioData with
      frequencyData := some [10, 20], timeDomainData := some [128, 128] } }

/-- An instance whose snapshot holds live values (as ticks leave it):
nonzero energy and an allocated frequency buffer. -/
def sTicked : AudioSource :=
  { s0 with audioData := { defaultAudioData with
      energy := 1 / 2, frequencyData := some [7] } }

/-- Two instance states agreeing on every lifecycle/resource field (the
analysis ticks only write the snapshot, the smoothing state and the lazily
created pitch detector). -/
def SameLifecycle (a b : AudioSource) : Prop :=
  a.audioContext = b.audioContext ∧ a.analyser = b.analyser ∧
  a.meydaAnalyser = b.meydaAnalyser ∧ a.source = b.source ∧
  a.scriptProcessor = b.scriptProcessor ∧ a.pollFrameId = b.pollFrameId ∧
  a.isInitialized = b.isInitialized ∧ a.isExternal = b.isExternal

/-!
Theorems.
-/

/-- Closed form of iterated smoothing of a constant input. -/
theorem smoothIter_closed (f x c : ℝ) (n : ℕ) :
    smoothIter f x c n = c + (x - c) * f ^ n := by
  induction n with
  | zero => simp [smoothIter]
  | succ n ih =>
    rw [smoothIter, ih, smooth, pow_succ]
    ring

/-- Counterexample to C9 as stated: with smoothing factor `1` (which the
claim includes, `factor ∈ [0,1]`) and starting value `1`, repeatedly
smoothing the constant input `0` stays at `1` forever and does not converge
to `0`. -/
theorem smoother_frozen_at_factor_one :
    ¬ Filter.Tendsto (fun n => smoothIter 1 1 0 n) Filter.atTop (nhds 0) := by
  intro hT
  have hconst : ∀ n : ℕ, smoothIter 1 1 0 n = 1 := by
    intro n
    rw [smoothIter_closed]
    ring
  have h1 : Filter.Tendsto (fun _ : ℕ => (1 : ℝ)) Filter.atTop (nhds 0) :=
    hT.congr hconst
  have := tendsto_nhds_unique h1 tendsto_const_nhds
  norm_num at this

/-- C9 (amended): the Meyda tick smooths each of energy, warmth, richness,
sharpness once via `smoothed' = smoothed*factor + raw*(1-factor)`; a
constant input is an exact fixed point of the smoother; and iterated
smoothing of a constant input `c` converges to `c` for every smoothing
factor in `[0,1)` — while at factor `1` the value stays frozen at its
starting point, so convergence fails there. -/
theorem smoother_formula_fixed_point_convergence :
    (∀ (s : AudioSource) (feats : MeydaFeatures),
      (updateFeatures s feats).smoothedValues.energy
          = smooth s.smoothingFactor s.smoothedValues.energy feats.energy ∧
      (updateFeatures s feats).smoothedValues.warmth
          = smooth s.smoothingFactor s.smoothedValues.warmth feats.spectralCentroid ∧
      (updateFeatures s feats).smoothedValues.richness
          = smooth s.smoothingFactor s.smoothedValues.richness feats.perceptualSpread ∧
      (updateFeatures s feats).smoothedValues.sharpness
          = smooth s.smoothingFactor s.smoothedValues.sharpness feats.perceptualSharpness) ∧
    (∀ f c : ℝ, smooth f c c = c) ∧
    (∀ x c : ℝ, ∀ n : ℕ, smoothIter 1 x c n = x) ∧
    (∀ f x c : ℝ, 0 ≤ f → f < 1 →
      Filter.Tendsto (smoothIter f x c) Filter.atTop (nhds c)) := by
  refine ⟨?_, ?_, ?_, ?_⟩
  · intro s feats
    exact ⟨rfl, rfl, rfl, rfl⟩
  · intro f c
    unfold smooth
    ring
  · intro x c n
    rw [smoothIter_closed]
    ring
  · intro f x c h0 h1
    have hpow := tendsto_pow_atTop_nhds_zero_of_lt_one h0 h1
    have key : Filter.Tendsto (fun n : ℕ => c + (x - c) * f ^ n)
        Filter.atTop (nhds (c + (x - c) * 0)) :=
      (hpow.const_mul (x - c)).const_add c
    have heq : (fun n : ℕ => c + (x - c) * f ^ n) = smoothIter f x c := by
      funext n
      rw [smoothIter_closed]
    rw [heq] at key
    simpa using key

/-- Witness for C9's convergence hypotheses at factor `0.5`. -/
theorem smoother_formula_fixed_point_convergence_witness :
    (0 : ℝ) ≤ 0.5 ∧ (0.5 : ℝ) < 1 ∧
    Filter.Tendsto (smoothIter 0.5 7 3) Filter.atTop (nhds 3) :=
  ⟨by norm_num, by norm_num,
    smoother_formula_fixed_point_convergence.2.2.2 0.5 7 3 (by norm_num) (by norm_num)⟩

/-- C5: on a tick with an attached analyser and context, the pitch estimate
is accepted (and mapped through `noteFromFreq`) exactly when
`clarity > clarityThreshold` and `minFrequency < pitch < maxFrequency`; in
every other case — including a thrown estimator exception, modelled by
`Except.error` — the tick writes `(null, null)` and surfaces nothing (the
update is a total function). -/
theorem pitch_gate_iff (env : TickEnv) (s : AudioSource) (anl : Analyser)
    (ctx : AudioCtx) (hA : s.analyser = some anl) (hC : s.audioContext = some ctx) :
    (((updatePitch env s).audioData.pitch ≠ none ∨
        (updatePitch env s).audioData.octave ≠ none) ↔
      (∃ p c, env.pitchResult = .ok (p, c) ∧
        c > s.pitchConfig.clarityThreshold ∧
        p > s.pitchConfig.minFrequency ∧ p < s.pitchConfig.maxFrequency)) ∧
    (∀ p c, env.pitchResult = .ok (p, c) →
      c > s.pitchConfig.clarityThreshold →
      p > s.pitchConfig.minFrequency → p < s.pitchConfig.maxFrequency →
      (updatePitch env s).audioData.pitch = some (env.noteFromFreq p).name ∧
      (updatePitch env s).audioData.octave = some (env.noteFromFreq p).octave) := by
  cases hres : env.pitchResult with
  | error e =>
    constructor
    · simp [updatePitch, hA, hC, updatePitchResult, hres]
    · intro p c hok
      exact absurd hok (by simp)
  | ok pc =>
    obtain ⟨p, c⟩ := pc
    by_cases hgate : c > s.pitchConfig.clarityThreshold ∧
        p > s.pitchConfig.minFrequency ∧ p < s.pitchConfig.maxFrequency
    · constructor
      · simp only [updatePitch, hA, hC, updatePitchResult, hres, if_pos hgate]
        simp only [ne_eq, reduceCtorEq, not_false_eq_true, true_or, true_iff]
        exact ⟨p, c, rfl, hgate⟩
      · intro p' c' hok h1 h2 h3
        obtain ⟨hp, hc⟩ : p = p' ∧ c = c' := by
          constructor <;> injection hok with h <;> injection h
        subst hp; subst hc
        simp [updatePitch, hA, hC, updatePitchResult, hres, if_pos hgate]
    · constructor
      · simp only [updatePitch, hA, hC, updatePitchResult, hres, if_neg hgate]
        simp only [ne_eq, not_true_eq_false, or_self, false_iff, not_exists]
        intro p' c' ⟨hok, h1, h2, h3⟩
        obtain ⟨hp, hc⟩ : p = p' ∧ c = c' := by
          constructor <;> injection hok with h <;> injection h
        subst hp; subst hc
        exact hgate ⟨h1, h2, h3⟩
      · intro p' c' hok h1 h2 h3
        obtain ⟨hp, hc⟩ : p = p' ∧ c = c' := by
          constructor <;> injection hok with h <;> injection h
        subst hp; subst hc
        exact absurd ⟨h1, h2, h3⟩ hgate

/-- Witness for C5: a clear 440 Hz estimate against the default gate
(threshold 0.9, range (20, 4000)) is accepted and mapped. -/
theorem pitch_gate_iff_witness :
    sTap.analyser = some ⟨1, 2048⟩ ∧ sTap.audioContext = some ⟨0, 44100⟩ ∧
    (updatePitch tenv0 sTap).audioData.pitch = some "A" ∧
    (updatePitch tenv0 sTap).audioData.octave = some 4 := by
  refine ⟨rfl, rfl, ?_⟩
  have h := (pitch_gate_iff tenv0 sTap ⟨1, 2048⟩ ⟨0, 44100⟩ rfl rfl).2 440 0.95 rfl
    (by show (0.95 : ℝ) > 0.9; norm_num)
    (by show (440 : ℝ) > 20; norm_num)
    (by show (440 : ℝ) < 4000; norm_num)
  exact h

/-- C6: calling any of the three initializers on an already-initialized
instance is a pure no-op with a warning: no error, no effect other than the
warning, and the state — every field — is returned untouched. -/
theorem double_init_noop (s : AudioSource) (hInit : s.isInitialized = true)
    (menv : MicEnv) (a c : JSArg) (tenv : TickEnv) (eenv : ElemEnv) :
    initMicrophone menv s = ⟨s, [Effect.warn], none⟩ ∧
    connectExternalAnalyser s a c tenv = ⟨s, [Effect.warn], none⟩ ∧
    connectAudioElement eenv s = ⟨s, [Effect.warn], none⟩ := by
  unfold initMicrophone connectExternalAnalyser connectAudioElement
  simp [hInit]

/-- Witness for C6 on a concrete initialized instance. -/
theorem double_init_noop_witness :
    sInit.isInitialized = true ∧
    initMicrophone menvOk sInit = ⟨sInit, [Effect.warn], none⟩ ∧
    connectExternalAnalyser sInit .otherArg .otherArg tenv0 = ⟨sInit, [Effect.warn], none⟩ ∧
    connectAudioElement eenvOk sInit = ⟨sInit, [Effect.warn], none⟩ :=
  ⟨rfl, double_init_noop sInit rfl menvOk .otherArg .otherArg tenv0 eenvOk⟩

/-- Sum of an affine map over a list. -/
theorem list_sum_map_affine (l : List ℝ) (a b : ℝ) :
    (l.map fun v => a + v * b).sum = l.length * a + l.sum * b := by
  induction l with
  | nil => simp
  | cons hd tl ih =>
    simp only [List.map_cons, List.sum_cons, List.length_cons, List.sum_cons, ih]
    push_cast
    ring

/-- Arithmetic-geometric mean inequality in the exp/log form used by the
flatness computation: for a nonempty list of positive reals,
`exp(mean(log v)) ≤ mean(v)`. -/
theorem exp_mean_log_le_mean (vals : List ℝ) (hpos : ∀ v ∈ vals, 0 < v)
    (hne : vals ≠ []) :
    Real.exp ((vals.map Real.log).sum / vals.length) ≤ vals.sum / vals.length := by
  have hn : 0 < (vals.length : ℝ) := by
    exact_mod_cast List.length_pos_iff_ne_nil.2 hne
  set n : ℝ := (vals.length : ℝ)
  have hsum : 0 < vals.sum := List.sum_pos vals hpos hne
  set am : ℝ := vals.sum / n with ham_def
  have ham : 0 < am := div_pos hsum hn
  -- pointwise: log v ≤ (log am - 1) + v * (1/am)
  have hpt : ∀ v ∈ vals, Real.log v ≤ (Real.log am - 1) + v * (1 / am) := by
    intro v hv
    have hvpos := hpos v hv
    have h1 : Real.log (v / am) ≤ v / am - 1 :=
      Real.log_le_sub_one_of_pos (div_pos hvpos ham)
    rw [Real.log_div (ne_of_gt hvpos) (ne_of_gt ham)] at h1
    have : v * (1 / am) = v / am := by ring
    linarith [h1, this]
  have hsum_le : (vals.map Real.log).sum ≤
      (vals.map fun v => (Real.log am - 1) + v * (1 / am)).sum :=
    List.sum_le_sum hpt
  have hrhs : (vals.map fun v => (Real.log am - 1) + v * (1 / am)).sum
      = n * Real.log am := by
    rw [list_sum_map_affine]
    have hsn : vals.sum = am * n := by
      rw [ham_def]
      field_simp
    rw [hsn]
    field_simp
    ring
  have hmean : (vals.map Real.log).sum / n ≤ Real.log am := by
    rw [div_le_iff₀ hn]
    calc (vals.map Real.log).sum ≤ n * Real.log am := hrhs ▸ hsum_le
    _ = Real.log am * n := by ring
  calc Real.exp ((vals.map Real.log).sum / n) ≤ Real.exp (Real.log am) :=
        Real.exp_le_exp.2 hmean
  _ = am := Real.exp_log ham

/-- Counterexample to C2 as stated: on the all-zero buffer the fallback
estimator returns flatness `1`, not `0` — the `max(v,1)` floor makes both
the geometric and the arithmetic mean equal to `1`. -/
theorem flatness_zero_buffer_eq_one :
    flatnessFD [0, 0, 0, 0] = 1 ∧ (1 : ℝ) ≠ 0 := by
  constructor
  · unfold flatnessFD
    have hmax : max ((0 : ℕ) : ℝ) 1 = 1 := by norm_num
    simp only [List.map_cons, List.map_nil, hmax, List.sum_cons, List.sum_nil,
      Real.log_one, List.length_cons, List.length_nil]
    norm_num
  · norm_num

/-- C2 (amended): for every non-empty byte buffer the fallback estimator
returns energy in `[0,1]` and flatness in `[0,1]`, and neither is ever a
division by zero (`NaN`); however, on the buffer that is zero everywhere it
returns energy `0` and flatness `1` (not `0`): flooring the magnitudes at
`1` makes the all-zero spectrum maximally flat. -/
theorem energy_flatness_bounds (buf : List ℕ) (hne : buf ≠ [])
    (hbytes : ∀ v ∈ buf, v ≤ 255) :
    (0 ≤ energyFD buf ∧ energyFD buf ≤ 1) ∧
    (0 ≤ flatnessFD buf ∧ flatnessFD buf ≤ 1) ∧
    ((∀ v ∈ buf, v = 0) → energyFD buf = 0 ∧ flatnessFD buf = 1) := by
  have hlen : 0 < (buf.length : ℝ) := by
    exact_mod_cast List.length_pos_iff_ne_nil.2 hne
  refine ⟨⟨?_, ?_⟩, ?_, ?_⟩
  · -- 0 ≤ energy
    unfold energyFD
    positivity
  · -- energy ≤ 1
    unfold energyFD
    rw [div_le_one (by norm_num : (0:ℝ) < 255)]
    rw [Real.sqrt_le_iff]
    refine ⟨by norm_num, ?_⟩
    rw [div_le_iff₀ hlen]
    have hbd : (buf.map fun (v : ℕ) => (v : ℝ) * (v : ℝ)).sum ≤
        (buf.map fun (v : ℕ) => (v : ℝ) * (v : ℝ)).length • (65025 : ℝ) := by
      apply List.sum_le_card_nsmul
      intro x hx
      obtain ⟨v, hv, rfl⟩ := List.mem_map.1 hx
      have : (v : ℝ) ≤ 255 := by exact_mod_cast hbytes v hv
      nlinarith [Nat.cast_nonneg (α := ℝ) v]
    rw [List.length_map, nsmul_eq_mul] at hbd
    calc (buf.map fun (v : ℕ) => (v : ℝ) * (v : ℝ)).sum
        ≤ (buf.length : ℝ) * 65025 := hbd
    _ = 255 ^ 2 * (buf.length : ℝ) := by ring
  · -- flatness bounds
    unfold flatnessFD
    have hvals_pos : ∀ v ∈ buf.map fun (v : ℕ) => max (v : ℝ) 1, 0 < v := by
      intro x hx
      obtain ⟨v, _, rfl⟩ := List.mem_map.1 hx
      exact lt_of_lt_of_le one_pos (le_max_right _ _)
    have hvne : (buf.map fun (v : ℕ) => max (v : ℝ) 1) ≠ [] := by
      simpa using hne
    have hsum : 0 < (buf.map fun (v : ℕ) => max (v : ℝ) 1).sum :=
      List.sum_pos _ hvals_pos hvne
    have hlen' : (buf.map fun (v : ℕ) => max (v : ℝ) 1).length = buf.length :=
      List.length_map _ _
    have ham : 0 < (buf.map fun (v : ℕ) => max (v : ℝ) 1).sum / (buf.length : ℝ) :=
      div_pos hsum hlen
    rw [if_pos ham]
    constructor
    · positivity
    · rw [div_le_one ham]
      have := exp_mean_log_le_mean (buf.map fun (v : ℕ) => max (v : ℝ) 1)
        hvals_pos hvne
      rwa [hlen'] at this
  · -- zero buffer
    intro hzero
    constructor
    · unfold energyFD
      have : (buf.map fun (v : ℕ) => (v : ℝ) * (v : ℝ)).sum = 0 := by
        apply List.sum_eq_zero
        intro x hx
        obtain ⟨v, hv, rfl⟩ := List.mem_map.1 hx
        rw [hzero v hv]
        norm_num
      rw [this]
      simp
    · unfold flatnessFD
      have hvals : (buf.map fun (v : ℕ) => max (v : ℝ) 1)
          = List.replicate buf.length 1 := by
        rw [show buf.length = (buf.map fun (v : ℕ) => max (v : ℝ) 1).length from
          (List.length_map _ _).symm]
        rw [List.eq_replicate_length]
        intro x hx
        obtain ⟨v, hv, rfl⟩ := List.mem_map.1 hx
        rw [hzero v hv]
        norm_num
      rw [hvals]
      have hlog : (List.replicate buf.length (1 : ℝ)).map Real.log
          = List.replicate buf.length 0 := by
        rw [List.map_replicate, Real.log_one]
      dsimp only
      rw [hlog]
      simp only [List.sum_replicate, smul_zero, zero_div, Real.exp_zero, nsmul_eq_mul,
        mul_one]
      rw [if_pos (div_pos hlen hlen)]
      rw [div_self (ne_of_gt hlen), div_one]

/-- Witness for C2 (amended) on the concrete buffer `[0, 255]`. -/
theorem energy_flatness_bounds_witness :
    ([0, 255] : List ℕ) ≠ [] ∧ (∀ v ∈ ([0, 255] : List ℕ), v ≤ 255) ∧
    (0 ≤ energyFD [0, 255] ∧ energyFD [0, 255] ≤ 1) ∧
    (0 ≤ flatnessFD [0, 255] ∧ flatnessFD [0, 255] ≤ 1) :=
  ⟨by decide, by decide,
    (energy_flatness_bounds [0, 255] (by decide) (by decide)).1,
    (energy_flatness_bounds [0, 255] (by decide) (by decide)).2.1⟩

/-- Every value the scan loop can read from the buffer is bounded by a
bound on the buffer's entries (out-of-range reads default to `0`). -/
theorem getD_le_of_forall_le (freqData : List ℕ) (bound : ℕ)
    (hb : ∀ v ∈ freqData, v ≤ bound) : ∀ i, freqData.getD i 0 ≤ bound := by
  intro i
  rcases lt_or_ge i freqData.length with h | h
  · rw [List.getD_eq_getElem _ _ h]
    exact hb _ (List.getElem_mem h)
  · rw [List.getD_eq_default _ _ h]
    exact Nat.zero_le _

/-- The winning magnitude of the scan loop never exceeds a bound on the
buffer's entries. -/
theorem scanPeak_fst_le (freqData : List ℕ) (lo hi bound : ℕ)
    (hb : ∀ v ∈ freqData, v ≤ bound) : (scanPeak freqData lo hi).1 ≤ bound := by
  unfold scanPeak
  have hget := getD_le_of_forall_le freqData bound hb
  have key : ∀ (l : List ℕ) (acc : ℕ × ℕ), acc.1 ≤ bound →
      (l.foldl (fun acc i =>
        if freqData.getD i 0 > acc.1 then (freqData.getD i 0, i) else acc) acc).1
        ≤ bound := by
    intro l
    induction l with
    | nil => intro acc h; exact h
    | cons hd tl ih =>
      intro acc h
      rw [List.foldl_cons]
      apply ih
      by_cases hc : freqData.getD hd 0 > acc.1
      · rw [if_pos hc]
        exact hget hd
      · rw [if_neg hc]
        exact h
  exact key _ _ (Nat.zero_le _)

/-- Counterexample to C4 as stated: a silent tick (all-zero buffer,
`sampleRate = 44100`, 1024 bins) leaves the winner at
`peakBin = minBassBin = 0`, i.e. peak frequency `0` Hz, and the linear map
sends it to hue `-72`, outside `[0, 360]`. -/
theorem bass_hue_out_of_range :
    (updateDominantFrequency (List.replicate 1024 0) 44100).bassFrequency = -72 ∧
    ¬ (0 ≤ (updateDominantFrequency (List.replicate 1024 0) 44100).bassFrequency) := by
  have hbody : (updateDominantFrequency (List.replicate 1024 0) 44100).bassFrequency
      = bassHue (((scanPeak (List.replicate 1024 0)
          ⌊(20 : ℝ) / (44100 / 2 / ((List.replicate 1024 (0:ℕ)).length : ℝ))⌋₊
          (min ⌈(120 : ℝ) / (44100 / 2 / ((List.replicate 1024 (0:ℕ)).length : ℝ))⌉₊
            ((List.replicate 1024 (0:ℕ)).length - 1))).2 : ℝ)
        * (44100 / 2 / ((List.replicate 1024 (0:ℕ)).length : ℝ))) := rfl
  have hlen' : (List.replicate 1024 (0:ℕ)).length = 1024 :=
    List.length_replicate 1024 0
  have hlen : ((List.replicate 1024 (0:ℕ)).length : ℝ) = 1024 := by
    rw [hlen']
    norm_num
  have hfloor : ⌊(20 : ℝ) / (44100 / 2 / ((List.replicate 1024 (0:ℕ)).length : ℝ))⌋₊ = 0 := by
    rw [hlen]
    apply Nat.floor_eq_zero.2
    norm_num
  have hceil : ⌈(120 : ℝ) / (44100 / 2 / ((List.replicate 1024 (0:ℕ)).length : ℝ))⌉₊ = 6 := by
    rw [hlen]
    rw [Nat.ceil_eq_iff (by norm_num)]
    norm_num
  rw [hbody, hfloor, hceil, hlen']
  have hscan : (scanPeak (List.replicate 1024 0) 0 (min 6 (1024 - 1))).2 = 0 := by decide
  rw [hscan]
  unfold bassHue
  norm_num

/-- C1: evaluation of the code at the claim's scenario, exhibiting the bug.
`_updateDominantFrequency` scans only the bass bins
(`floor(20/binSize) .. ceil(120/binSize)` = bins `0..6` at
`sampleRate = 44100`, 1024 bins) yet writes the winner into
`dominantBin`/`dominantFrequency`, which both the spec and the code's own
comments describe as the full-spectrum FFT peak. For the buffer whose only
energy is 255 at bin 100, the code reports bin `0` and frequency `0` Hz
instead of bin `100` and `100 * (22050/1024)` Hz. -/
theorem dominant_peak_misses_bin_100 :
    (updateDominantFrequency bin100Buf 44100).dominantBin = 0 ∧
    (updateDominantFrequency bin100Buf 44100).dominantFrequency = 0 ∧
    (updateDominantFrequency bin100Buf 44100).dominantBin ≠ 100 ∧
    (updateDominantFrequency bin100Buf 44100).dominantFrequency ≠ 100 * (22050 / 1024) := by
  have hlen' : bin100Buf.length = 1024 := by decide
  have hlen : (bin100Buf.length : ℝ) = 1024 := by
    rw [hlen']
    norm_num
  have hbin : (updateDominantFrequency bin100Buf 44100).dominantBin
      = (scanPeak bin100Buf
          ⌊(20 : ℝ) / (44100 / 2 / (bin100Buf.length : ℝ))⌋₊
          (min ⌈(120 : ℝ) / (44100 / 2 / (bin100Buf.length : ℝ))⌉₊
            (bin100Buf.length - 1))).2 := rfl
  have hfreq : (updateDominantFrequency bin100Buf 44100).dominantFrequency
      = ((scanPeak bin100Buf
          ⌊(20 : ℝ) / (44100 / 2 / (bin100Buf.length : ℝ))⌋₊
          (min ⌈(120 : ℝ) / (44100 / 2 / (bin100Buf.length : ℝ))⌉₊
            (bin100Buf.length - 1))).2 : ℝ)
        * (44100 / 2 / (bin100Buf.length : ℝ)) := rfl
  have hfloor : ⌊(20 : ℝ) / (44100 / 2 / (bin100Buf.length : ℝ))⌋₊ = 0 := by
    rw [hlen]
    apply Nat.floor_eq_zero.2
    norm_num
  have hceil : ⌈(120 : ℝ) / (44100 / 2 / (bin100Buf.length : ℝ))⌉₊ = 6 := by
    rw [hlen]
    rw [Nat.ceil_eq_iff (by norm_num)]
    norm_num
  have hscan : (scanPeak bin100Buf 0 (min 6 (1024 - 1))).2 = 0 := by decide
  have h1 : (updateDominantFrequency bin100Buf 44100).dominantBin = 0 := by
    rw [hbin, hfloor, hceil, hlen', hscan]
  have h2 : (updateDominantFrequency bin100Buf 44100).dominantFrequency = 0 := by
    rw [hfreq, hfloor, hceil, hlen', hscan]
    norm_num
  refine ⟨h1, h2, ?_, ?_⟩
  · rw [h1]
    norm_num
  · rw [h2]
    norm_num

/-- C4 (amended): the dominant-bass tick sets `bassFrequency` to the linear
map `[20,120] Hz → [0,360]` of the winning peak's frequency — the map sends
20 Hz to hue 0 and 120 Hz to hue 360 and is strictly increasing — and
`bassEnergy` to the winning magnitude normalized to `[0,1]`; but the hue is
not always inside `[0,360]`: the scanned bin range is widened by
`floor`/`ceil`, so the winning bin's frequency (and hence the hue) can fall
outside the band. -/
theorem bass_hue_linear_map (freqData : List ℕ) (sampleRate : ℝ)
    (hbytes : ∀ v ∈ freqData, v ≤ 255) :
    (updateDominantFrequency freqData sampleRate).bassFrequency
        = bassHue (updateDominantFrequency freqData sampleRate).dominantFrequency ∧
    bassHue 20 = 0 ∧ bassHue 120 = 360 ∧ StrictMono bassHue ∧
    0 ≤ (updateDominantFrequency freqData sampleRate).bassEnergy ∧
    (updateDominantFrequency freqData sampleRate).bassEnergy ≤ 1 := by
  refine ⟨rfl, by unfold bassHue; norm_num, by unfold bassHue; norm_num, ?_, ?_, ?_⟩
  · intro a b hab
    unfold bassHue
    have : (a - 20) / 100 < (b - 20) / 100 := by linarith
    calc (a - 20) / (120 - 20) * 360 = (a - 20) / 100 * 360 := by norm_num
    _ < (b - 20) / 100 * 360 := by linarith
    _ = (b - 20) / (120 - 20) * 360 := by norm_num
  · unfold updateDominantFrequency
    positivity
  · unfold updateDominantFrequency
    have := scanPeak_fst_le freqData
      ⌊(20 : ℝ) / (sampleRate / 2 / (freqData.length : ℝ))⌋₊
      (min ⌈(120 : ℝ) / (sampleRate / 2 / (freqData.length : ℝ))⌉₊ (freqData.length - 1))
      255 hbytes
    rw [div_le_one (by norm_num : (0:ℝ) < 255)]
    exact_mod_cast this

/-- Witness for C4 (amended) on a concrete buffer with a bass peak. -/
theorem bass_hue_linear_map_witness :
    (∀ v ∈ ([0, 200, 0, 0, 0, 0, 0, 0] : List ℕ), v ≤ 255) ∧
    ((updateDominantFrequency [0, 200, 0, 0, 0, 0, 0, 0] 44100).bassFrequency
        = bassHue (updateDominantFrequency [0, 200, 0, 0, 0, 0, 0, 0] 44100).dominantFrequency ∧
      0 ≤ (updateDominantFrequency [0, 200, 0, 0, 0, 0, 0, 0] 44100).bassEnergy ∧
      (updateDominantFrequency [0, 200, 0, 0, 0, 0, 0, 0] 44100).bassEnergy ≤ 1) := by
  have h := bass_hue_linear_map [0, 200, 0, 0, 0, 0, 0, 0] 44100 (by decide)
  exact ⟨by decide, h.1, h.2.2.2.2.1, h.2.2.2.2.2⟩

/-- Smoothing a value toward a raw input keeps any bound both sides
satisfy, for smoothing factors in `[0,1]`. -/
theorem smooth_le_of_le (f old new b : ℝ) (hf0 : 0 ≤ f) (hf1 : f ≤ 1)
    (ho : old ≤ b) (hn : new ≤ b) : smooth f old new ≤ b := by
  unfold smooth
  nlinarith [mul_le_mul_of_nonneg_right ho hf0,
    mul_le_mul_of_nonneg_right hn (by linarith : (0:ℝ) ≤ 1 - f)]

/-- C10: on the fallback feature path the tick smooths warmth toward
`min(centroid, 360)` (not the raw centroid), so for any smoothing factor in
`[0,1]`, warmth at most `360` before a fallback tick stays at most `360`
after it — in both the smoothing state and the published snapshot. -/
theorem fallback_warmth_le_360 (s : AudioSource)
    (hf0 : 0 ≤ s.smoothingFactor) (hf1 : s.smoothingFactor ≤ 1)
    (hw : s.smoothedValues.warmth ≤ 360) (hw' : s.audioData.warmth ≤ 360) :
    (calculateFeaturesFromFrequencyData s).smoothedValues.warmth ≤ 360 ∧
    (calculateFeaturesFromFrequencyData s).audioData.warmth ≤ 360 ∧
    (∀ freqData ctx, s.audioData.frequencyData = some freqData →
      s.audioContext = some ctx →
      (calculateFeaturesFromFrequencyData s).smoothedValues.warmth
        = smooth s.smoothingFactor s.smoothedValues.warmth
            (min (centroidFD freqData ctx.sampleRate) 360)) := by
  cases hfd : s.audioData.frequencyData with
  | none =>
    unfold calculateFeaturesFromFrequencyData
    rw [hfd]
    exact ⟨hw, hw', fun _ _ h _ => Option.noConfusion h⟩
  | some freqData =>
    cases hctx : s.audioContext with
    | none =>
      unfold calculateFeaturesFromFrequencyData
      rw [hfd, hctx]
      exact ⟨hw, hw', fun _ _ _ h => Option.noConfusion h⟩
    | some ctx =>
      have hsm : (calculateFeaturesFromFrequencyData s).smoothedValues.warmth
          = smooth s.smoothingFactor s.smoothedValues.warmth
              (min (centroidFD freqData ctx.sampleRate) 360) := by
        unfold calculateFeaturesFromFrequencyData
        rw [hfd, hctx]
      have had : (calculateFeaturesFromFrequencyData s).audioData.warmth
          = smooth s.smoothingFactor s.smoothedValues.warmth
              (min (centroidFD freqData ctx.sampleRate) 360) := by
        unfold calculateFeaturesFromFrequencyData
        rw [hfd, hctx]
      have hbound : smooth s.smoothingFactor s.smoothedValues.warmth
          (min (centroidFD freqData ctx.sampleRate) 360) ≤ 360 :=
        smooth_le_of_le _ _ _ _ hf0 hf1 hw (min_le_right _ _)
      refine ⟨hsm ▸ hbound, had ▸ hbound, ?_⟩
      intro fd c hfd' hctx'
      injection hfd' with hfd1
      injection hctx' with hctx1
      subst hfd1
      subst hctx1
      exact hsm

/-- Witness for C10 on a concrete mid-stream instance (smoothing factor
`0.8`, warmth `0`, buffer `[10, 20]`). -/
theorem fallback_warmth_le_360_witness :
    0 ≤ sFallback.smoothingFactor ∧ sFallback.smoothingFactor ≤ 1 ∧
    sFallback.smoothedValues.warmth ≤ 360 ∧ sFallback.audioData.warmth ≤ 360 ∧
    (calculateFeaturesFromFrequencyData sFallback).smoothedValues.warmth ≤ 360 := by
  have hf : sFallback.smoothingFactor = 0.8 := rfl
  have hwv : sFallback.smoothedValues.warmth = 0 := rfl
  have hwa : sFallback.audioData.warmth = 0 := rfl
  refine ⟨by rw [hf]; norm_num, by rw [hf]; norm_num,
    by rw [hwv]; norm_num, by rw [hwa]; norm_num, ?_⟩
  exact (fallback_warmth_le_360 sFallback
    (by rw [hf]; norm_num) (by rw [hf]; norm_num)
    (by rw [hwv]; norm_num) (by rw [hwa]; norm_num)).1

/-- The state `destroy` leaves behind: all resource references nulled, the
poll cancelled, the initialized flag cleared, everything else untouched. -/
theorem destroy_state (s : AudioSource) :
    (destroy s).1 = { s with
      pollFrameId := none
      isInitialized := false
      meydaAnalyser := none
      scriptProcessor := none
      source := none
      analyser := none
      audioContext := none
      pitchDetector := none } := by
  unfold destroy
  cases hp : s.pollFrameId <;> cases hm : s.meydaAnalyser <;>
    cases hsp : s.scriptProcessor <;> simp [hp, hm, hsp]

/-- Counterexample to C3 as stated: `destroy()` never resets the feature
snapshot, so after two destroys of an instance whose snapshot holds live
values (energy `1/2`, an allocated buffer) `getAudioData()` still returns
those values, not the null/default shape. -/
theorem destroy_keeps_last_snapshot :
    getAudioData (destroy (destroy sTicked).1).1 ≠ defaultAudioData := by
  intro h
  have he : (getAudioData (destroy (destroy sTicked).1).1).energy = 1 / 2 := rfl
  rw [h] at he
  have : (0 : ℝ) = 1 / 2 := he
  norm_num at this

/-- C3 (amended): `destroy()` twice in a row never throws (it is a total
function); the second call changes nothing and emits no effects; and the
feature snapshot is left exactly as it was — so it is in its null/default
shape after the calls precisely when it already was before (as on an
instance that never ticked). -/
theorem destroy_idempotent_snapshot_unchanged (s : AudioSource) :
    (destroy (destroy s).1).1 = (destroy s).1 ∧
    (destroy (destroy s).1).2 = [] ∧
    (destroy s).1.audioData = s.audioData ∧
    (s.audioData = defaultAudioData →
      getAudioData (destroy (destroy s).1).1 = defaultAudioData) := by
  have h1 := destroy_state s
  have h2 := destroy_state (destroy s).1
  have hstate : (destroy (destroy s).1).1 = (destroy s).1 := by
    rw [h2, h1]
  have heff : (destroy (destroy s).1).2 = [] := by
    rw [h1]
    rfl
  have hdata : (destroy s).1.audioData = s.audioData := by
    rw [h1]
  refine ⟨hstate, heff, hdata, ?_⟩
  intro hdef
  rw [getAudioData, hstate, hdata, hdef]

/-- Witness for C3 (amended): a freshly constructed instance destroyed
twice still reports the default null-shaped snapshot. -/
theorem destroy_idempotent_snapshot_unchanged_witness :
    s0.audioData = defaultAudioData ∧
    getAudioData (destroy (destroy s0).1).1 = defaultAudioData :=
  ⟨rfl, (destroy_idempotent_snapshot_unchanged s0).2.2.2 rfl⟩

/-- The frequency-data tick never touches lifecycle or resource fields. -/
theorem updateFrequencyData_lifecycle (env : TickEnv) (s : AudioSource) :
    SameLifecycle (updateFrequencyData env s) s := by
  unfold updateFrequencyData updateDominantFrequencyState SameLifecycle
  rcases hA : s.analyser with _ | anl <;> rcases hC : s.audioContext with _ | ctx <;>
    simp [hA, hC]

/-- The pitch tick never touches lifecycle or resource fields. -/
theorem updatePitch_lifecycle (env : TickEnv) (s : AudioSource) :
    SameLifecycle (updatePitch env s) s := by
  unfold updatePitch SameLifecycle
  rcases hA : s.analyser with _ | anl <;> rcases hC : s.audioContext with _ | ctx <;>
    simp [hA, hC]

/-- The fallback feature tick never touches lifecycle or resource fields. -/
theorem calculateFeatures_lifecycle (s : AudioSource) :
    SameLifecycle (calculateFeaturesFromFrequencyData s) s := by
  unfold calculateFeaturesFromFrequencyData SameLifecycle
  rcases hF : s.audioData.frequencyData with _ | fd <;>
    rcases hC : s.audioContext with _ | ctx <;> simp [hF, hC]

/-- One poll-loop iteration body never touches lifecycle or resource
fields. -/
theorem pollTickBody_lifecycle (env : TickEnv) (s : AudioSource) :
    SameLifecycle (pollTickBody env s) s := by
  unfold pollTickBody
  have h1 := updateFrequencyData_lifecycle env s
  have h2 := updatePitch_lifecycle env (updateFrequencyData env s)
  have h3 := calculateFeatures_lifecycle (updatePitch env (updateFrequencyData env s))
  obtain ⟨a1, b1, c1, d1, e1, f1, g1, i1⟩ := h1
  obtain ⟨a2, b2, c2, d2, e2, f2, g2, i2⟩ := h2
  obtain ⟨a3, b3, c3, d3, e3, f3, g3, i3⟩ := h3
  dsimp only
  split
  · exact ⟨a3.trans (a2.trans a1), b3.trans (b2.trans b1), c3.trans (c2.trans c1),
      d3.trans (d2.trans d1), e3.trans (e2.trans e1), f3.trans (f2.trans f1),
      g3.trans (g2.trans g1), i3.trans (i2.trans i1)⟩
  · exact ⟨a2.trans a1, b2.trans b1, c2.trans c1, d2.trans d1, e2.trans e1,
      f2.trans f1, g2.trans g1, i2.trans i1⟩

/-- C8: destroying an instance attached through the external-tap path never
disconnects or closes anything — in particular not the caller-supplied
analyser node or audio context: the whole effect trace of `destroy` is the
poll cancellation, and the instance's own references are nulled. -/
theorem external_destroy_preserves_caller_graph (s : AudioSource) (hU : Uninit s)
    (aid fftSize cid : ℕ) (rate : ℝ) (env : TickEnv) :
    (connectExternalAnalyser s (.analyserNode aid fftSize)
        (.audioContextArg cid rate) env).error = none ∧
    (destroy (connectExternalAnalyser s (.analyserNode aid fftSize)
        (.audioContextArg cid rate) env).state).2 = [Effect.cancelPoll] ∧
    (∀ r, Effect.disconnect r ∉ (destroy (connectExternalAnalyser s
        (.analyserNode aid fftSize) (.audioContextArg cid rate) env).state).2) ∧
    (∀ r, Effect.close r ∉ (destroy (connectExternalAnalyser s
        (.analyserNode aid fftSize) (.audioContextArg cid rate) env).state).2) ∧
    (destroy (connectExternalAnalyser s (.analyserNode aid fftSize)
        (.audioContextArg cid rate) env).state).1.audioContext = none ∧
    (destroy (connectExternalAnalyser s (.analyserNode aid fftSize)
        (.audioContextArg cid rate) env).state).1.analyser = none ∧
    (destroy (connectExternalAnalyser s (.analyserNode aid fftSize)
        (.audioContextArg cid rate) env).state).1.pitchDetector = none ∧
    (destroy (connectExternalAnalyser s (.analyserNode aid fftSize)
        (.audioContextArg cid rate) env).state).1.pollFrameId = none := by
  obtain ⟨hI, hC, hA, hSrc, hSp, hM⟩ := hU
  obtain ⟨ctxF, anlF, meyF, pdF, srcF, spF, pfF, initF, extF, pcF, sfF, svF, adF⟩ := s
  dsimp only at hI hC hA hSrc hSp hM
  subst hI; subst hC; subst hA; subst hSrc; subst hSp; subst hM
  have hconn : connectExternalAnalyser
      ⟨none, none, none, pdF, none, none, pfF, false, extF, pcF, sfF, svF, adF⟩
      (.analyserNode aid fftSize) (.audioContextArg cid rate) env
      = ⟨{ pollTickBody env ⟨some ⟨cid, rate⟩, some ⟨aid, fftSize⟩, none, some fftSize,
            none, none, pfF, true, true, pcF, sfF, svF, adF⟩ with
            pollFrameId := some env.frameId }, [], none⟩ := rfl
  obtain ⟨ha, hb, hc, hd, he, hf, hg, hi⟩ := pollTickBody_lifecycle env
    ⟨some ⟨cid, rate⟩, some ⟨aid, fftSize⟩, none, some fftSize,
      none, none, pfF, true, true, pcF, sfF, svF, adF⟩
  have hc' : (pollTickBody env ⟨some ⟨cid, rate⟩, some ⟨aid, fftSize⟩, none,
      some fftSize, none, none, pfF, true, true, pcF, sfF, svF, adF⟩).meydaAnalyser
      = none := hc
  have hd' : (pollTickBody env ⟨some ⟨cid, rate⟩, some ⟨aid, fftSize⟩, none,
      some fftSize, none, none, pfF, true, true, pcF, sfF, svF, adF⟩).source
      = none := hd
  have he' : (pollTickBody env ⟨some ⟨cid, rate⟩, some ⟨aid, fftSize⟩, none,
      some fftSize, none, none, pfF, true, true, pcF, sfF, svF, adF⟩).scriptProcessor
      = none := he
  have hi' : (pollTickBody env ⟨some ⟨cid, rate⟩, some ⟨aid, fftSize⟩, none,
      some fftSize, none, none, pfF, true, true, pcF, sfF, svF, adF⟩).isExternal
      = true := hi
  have ha' : (pollTickBody env ⟨some ⟨cid, rate⟩, some ⟨aid, fftSize⟩, none,
      some fftSize, none, none, pfF, true, true, pcF, sfF, svF, adF⟩).audioContext
      = some ⟨cid, rate⟩ := ha
  have hb' : (pollTickBody env ⟨some ⟨cid, rate⟩, some ⟨aid, fftSize⟩, none,
      some fftSize, none, none, pfF, true, true, pcF, sfF, svF, adF⟩).analyser
      = some ⟨aid, fftSize⟩ := hb
  have heffs : (destroy { pollTickBody env ⟨some ⟨cid, rate⟩, some ⟨aid, fftSize⟩,
      none, some fftSize, none, none, pfF, true, true, pcF, sfF, svF, adF⟩ with
      pollFrameId := some env.frameId }).2 = [Effect.cancelPoll] := by
    unfold destroy
    simp [hc', hd', he', hi', ha', hb']
  have hdes := destroy_state { pollTickBody env ⟨some ⟨cid, rate⟩, some ⟨aid, fftSize⟩,
      none, some fftSize, none, none, pfF, true, true, pcF, sfF, svF, adF⟩ with
      pollFrameId := some env.frameId }
  rw [hconn]
  refine ⟨rfl, heffs, fun r => by rw [heffs]; simp, fun r => by rw [heffs]; simp,
    ?_, ?_, ?_, ?_⟩
  · rw [hdes]
  · rw [hdes]
  · rw [hdes]
  · rw [hdes]

/-- Witness for C8 on a fresh instance and concrete caller nodes. -/
theorem external_destroy_preserves_caller_graph_witness :
    Uninit s0 ∧
    (connectExternalAnalyser s0 (.analyserNode 10 2048)
        (.audioContextArg 11 44100) tenv0).error = none ∧
    (destroy (connectExternalAnalyser s0 (.analyserNode 10 2048)
        (.audioContextArg 11 44100) tenv0).state).2 = [Effect.cancelPoll] ∧
    (destroy (connectExternalAnalyser s0 (.analyserNode 10 2048)
        (.audioContextArg 11 44100) tenv0).state).1.audioContext = none := by
  have hU : Uninit s0 := ⟨rfl, rfl, rfl, rfl, rfl, rfl⟩
  have h := external_destroy_preserves_caller_graph s0 hU 10 2048 11 44100 tenv0
  exact ⟨hU, h.1, h.2.1, h.2.2.2.2.1⟩

/-- C7: initializer failures are atomic. If `initMicrophone` or
`connectAudioElement` fails at any platform step, every resource created
before the failure is released in exactly reverse creation order (script
processor, then source, then analyser, then audio context — whichever
exist) before the error is surfaced, and the instance is back in the
uninitialized state, so the call can be re-attempted; and
`connectExternalAnalyser` called with a first argument that is not an
`AnalyserNode` throws the descriptive invalid-argument error with the state
untouched and no effect on any resource — in particular before touching the
provided context. -/
theorem init_failure_rollback :
    (∀ (env : MicEnv) (s : AudioSource), Uninit s →
      (initMicrophone env s).error ≠ none →
        releasedIds (initMicrophone env s).effects
            = (createdIds (initMicrophone env s).effects).reverse ∧
        Uninit (initMicrophone env s).state) ∧
    (∀ (env : ElemEnv) (s : AudioSource), Uninit s →
      (connectAudioElement env s).error ≠ none →
        releasedIds (connectAudioElement env s).effects
            = (createdIds (connectAudioElement env s).effects).reverse ∧
        Uninit (connectAudioElement env s).state) ∧
    (∀ (s : AudioSource) (arg ctxArg : JSArg) (env : TickEnv),
      s.isInitialized = false → (∀ a f, arg ≠ JSArg.analyserNode a f) →
      connectExternalAnalyser s arg ctxArg env
          = ⟨s, [], some (JSError.invalidArgument
              "analyserNode must be an AnalyserNode instance")⟩) := by
  refine ⟨?_, ?_, ?_⟩
  · intro env s hU herr
    obtain ⟨hI, hC, hA, hSrc, hSp, hM⟩ := hU
    rcases env with ⟨gum, stream, ctxOk, rate, anlOk, srcOk, spOk, meyOk⟩
    cases gum <;> cases stream <;> cases ctxOk <;> cases anlOk <;> cases srcOk <;>
      cases spOk <;> cases meyOk <;>
      simp_all [initMicrophone, micFail, cleanupPartialInit, initMeyda,
        createdIds, releasedIds, Uninit, ctxId, analyserId, sourceId,
        scriptProcessorId, destId, meydaId]
  · intro env s hU herr
    obtain ⟨hI, hC, hA, hSrc, hSp, hM⟩ := hU
    rcases env with ⟨validEl, ctxOk, rate, anlOk, srcOk, meyOk, tick⟩
    cases validEl <;> cases ctxOk <;> cases anlOk <;> cases srcOk <;> cases meyOk <;>
      simp_all [connectAudioElement, elemFail, cleanupPartialInit, initMeyda,
        createdIds, releasedIds, Uninit, ctxId, analyserId, sourceId,
        scriptProcessorId, destId, meydaId]
  · intro s arg ctxArg env hI hnot
    cases arg with
    | analyserNode a f => exact absurd rfl (hnot a f)
    | audioContextArg a r =>
      unfold connectExternalAnalyser
      rw [hI]
      rfl
    | otherArg =>
      unfold connectExternalAnalyser
      rw [hI]
      rfl

/-- Witness for C7: a microphone initialization failing at the
script-processor step on a fresh instance rolls back the context, analyser
and source in reverse order; and an external connect with a non-node first
argument is rejected with the instance untouched. -/
theorem init_failure_rollback_witness :
    Uninit s0 ∧
    (initMicrophone menvSpFail s0).error ≠ none ∧
    releasedIds (initMicrophone menvSpFail s0).effects
        = (createdIds (initMicrophone menvSpFail s0).effects).reverse ∧
    Uninit (initMicrophone menvSpFail s0).state ∧
    s0.isInitialized = false ∧
    connectExternalAnalyser s0 .otherArg (.audioContextArg 11 44100) tenv0
        = ⟨s0, [], some (JSError.invalidArgument
            "analyserNode must be an AnalyserNode instance")⟩ := by
  have hU : Uninit s0 := ⟨rfl, rfl, rfl, rfl, rfl, rfl⟩
  have herr : (initMicrophone menvSpFail s0).error ≠ none := by
    intro h
    exact Option.noConfusion h
  have h1 := init_failure_rollback.1 menvSpFail s0 hU herr
  have h3 := init_failure_rollback.2.2 s0 .otherArg (.audioContextArg 11 44100) tenv0
    rfl (fun a f h => JSArg.noConfusion h)
  exact ⟨hU, herr, h1.1, h1.2, rfl, h3⟩

end Musicolors

end
